import Mathlib

/-!
Shallow Lean embedding of the duplicate-detection and metadata-merge pipeline:
the perceptual-hash fingerprinter (`generatePerceptualHash`, `hammingDistance`
from `src/lib/utils/perceptual-hash.ts`), the resilient Gemini detection wrapper
(`detectClothingItems` from `src/lib/gemini/multi-item-detection.ts`), and the
ingestion pipeline (`processClothingItems` / `mergeItem` from the server action).

Machine numbers are modelled as `ℚ`/`ℤ`/`ℕ`; JavaScript exceptions as
`Except String`; the network, the image decoder and the database are modelled
as explicit oracles passed in, so every definition is executable.
-/

namespace WardrobePipeline

/-! ### JavaScript string helpers

`String.prototype.includes` is modelled as a substring test over character
lists, and the JS truthiness test `!s` on a string as equality with `""`. -/

/-- `leadsWith pat l` is true when `pat` is an initial segment of `l`. -/
def leadsWith : List Char → List Char → Bool
  | [], _ => true
  | _ :: _, [] => false
  | a :: as, b :: bs => a == b && leadsWith as bs

/-- `hasSub pat l` is true when `pat` occurs contiguously inside `l`
(the model of JavaScript `String.prototype.includes`). -/
def hasSub (pat : List Char) : List Char → Bool
  | [] => leadsWith pat []
  | c :: rest => leadsWith pat (c :: rest) || hasSub pat rest

/-- `strHas s pat`: does the string `s` contain `pat` as a substring? -/
def strHas (s pat : String) : Bool := hasSub pat.toList s.toList

theorem leadsWith_self_append (pat rest : List Char) :
    leadsWith pat (pat ++ rest) = true := by
  induction pat with
  | nil => rfl
  | cons a as ih => simp [leadsWith, ih]

theorem hasSub_append_left (pat : List Char) (l rest : List Char)
    (h : hasSub pat rest = true) : hasSub pat (l ++ rest) = true := by
  induction l with
  | nil => simpa using h
  | cons a as ih => simp [hasSub, ih]

theorem hasSub_self (pat : List Char) : hasSub pat pat = true := by
  cases pat with
  | nil => rfl
  | cons a as =>
    have h := leadsWith_self_append (a :: as) []
    rw [List.append_nil] at h
    simp [hasSub, h]

theorem hasSub_of_suffix (pat pre : List Char) :
    hasSub pat (pre ++ pat) = true :=
  hasSub_append_left pat pre pat (hasSub_self pat)

/-! ### SignatureComparator: `hammingDistance` (perceptual-hash.ts, lines 143–155)

```ts
export function hammingDistance(hash1: string, hash2: string): number {
  if (hash1.length !== hash2.length) {
    throw new Error('Hashes must be of equal length')
  }
  let distance = 0
  for (let i = 0; i < hash1.length; i++) {
    if (hash1[i] !== hash2[i]) { distance++ }
  }
  return distance
}
```
-/

/-- The index loop of `hammingDistance`, walking both strings in lockstep. -/
def hdLoop : List Char → List Char → ℕ
  | [], _ => 0
  | _ :: _, [] => 0
  | a :: as, b :: bs => (if a ≠ b then 1 else 0) + hdLoop as bs

/-- `hammingDistance` from `perceptual-hash.ts`: length-mismatch throws,
otherwise the count of positions where the two hashes differ. -/
def hammingDistance (hash1 hash2 : String) : Except String ℕ :=
  if hash1.length ≠ hash2.length then .error "Hashes must be of equal length"
  else .ok (hdLoop hash1.toList hash2.toList)

/-- The specification-side reading of "the number of positions at which the two
signatures differ": indices below the common length where the characters differ. -/
def differingPositions (a b : List Char) : List ℕ :=
  (List.range a.length).filter (fun i => decide (a.getD i ' ' ≠ b.getD i ' '))

theorem differingPositions_cons (x y : Char) (xs ys : List Char) :
    (differingPositions (x :: xs) (y :: ys)).length =
      (if x ≠ y then 1 else 0) + (differingPositions xs ys).length := by
  simp only [differingPositions, List.length_cons, List.range_succ_eq_map,
    List.filter_cons, List.filter_map, List.getD_cons_zero, List.getD_cons_succ,
    Function.comp_def]
  by_cases hxy : x = y <;> simp [hxy, Nat.add_comm]

theorem hdLoop_eq_differingPositions (a : List Char) :
    ∀ b : List Char, a.length = b.length →
      hdLoop a b = (differingPositions a b).length := by
  induction a with
  | nil => intro b _; simp [hdLoop, differingPositions]
  | cons x xs ih =>
    intro b hb
    cases b with
    | nil => simp at hb
    | cons y ys =>
      have hlen : xs.length = ys.length := by simpa using hb
      rw [differingPositions_cons, hdLoop, ih ys hlen]

/-! ### Fingerprinter: `generatePerceptualHash` (perceptual-hash.ts, lines 69–137)

The image decoder (`sharp`) is modelled by oracles: the fetch/decode step
yields `ImageMeta` (with `width`/`height` possibly absent, as in sharp's
`metadata()`), and the greyscale-resize step is an oracle from the selected
crop to the 8×8 raw byte list. -/

/-- Bounding box as percentages of the image dimensions (0–100 intended),
as produced by the detector. -/
structure BBox where
  x : ℚ
  y : ℚ
  width : ℚ
  height : ℚ
deriving DecidableEq

/-- A pixel-coordinate crop rectangle handed to `sharp().extract`. -/
structure CropRect where
  left : ℤ
  top : ℤ
  width : ℤ
  height : ℤ
deriving DecidableEq

/-- JavaScript `Math.round`: round half toward positive infinity. -/
def jsRound (q : ℚ) : ℤ := ⌊q + 1 / 2⌋

/-- `clamp lo hi v = max lo (min v hi)` — the clamp the spec describes. -/
def clamp (lo hi v : ℤ) : ℤ := max lo (min v hi)

/-- Pixel-coordinate conversion and clamping of a percentage bounding box
(perceptual-hash.ts, lines 92–101):

```ts
const left = Math.round((boundingBox.x / 100) * imageWidth)
...
const safeLeft = Math.max(0, Math.min(left, imageWidth - 1))
const safeTop = Math.max(0, Math.min(top, imageHeight - 1))
const safeWidth = Math.max(1, Math.min(width, imageWidth - safeLeft))
const safeHeight = Math.max(1, Math.min(height, imageHeight - safeTop))
```
-/
def cropRect (imageWidth imageHeight : ℕ) (bb : BBox) : CropRect :=
  let left := jsRound (bb.x / 100 * imageWidth)
  let top := jsRound (bb.y / 100 * imageHeight)
  let width := jsRound (bb.width / 100 * imageWidth)
  let height := jsRound (bb.height / 100 * imageHeight)
  let safeLeft := max 0 (min left ((imageWidth : ℤ) - 1))
  let safeTop := max 0 (min top ((imageHeight : ℤ) - 1))
  let safeWidth := max 1 (min width ((imageWidth : ℤ) - safeLeft))
  let safeHeight := max 1 (min height ((imageHeight : ℤ) - safeTop))
  ⟨safeLeft, safeTop, safeWidth, safeHeight⟩

/-- Decoded-image metadata as reported by `sharp(buffer).metadata()`:
`width`/`height` may be absent. -/
structure ImageMeta where
  width : Option ℕ
  height : Option ℕ
deriving DecidableEq

/-- `metadata.width || 1`: JavaScript `||` replaces the falsy values
`undefined` and `0` by `1`. -/
def effDim : Option ℕ → ℕ
  | none => 1
  | some n => if n = 0 then 1 else n

/-- The thresholding step (perceptual-hash.ts, lines 119–129): average the raw
bytes, then emit `'1'` for each byte strictly above the average, else `'0'`. -/
def hashString (pixels : List ℕ) : String :=
  let avg : ℚ := (pixels.sum : ℚ) / (pixels.length : ℚ)
  String.mk (pixels.map (fun p => if (p : ℚ) > avg then '1' else '0'))

/-- `generatePerceptualHash`: fetch/decode (oracle `fetchResult`), read
dimensions with the `|| 1` fallback, crop when a bounding box is given, then
greyscale-resize (oracle `sample`) and threshold. Any error inside the `try`
is converted to the single failure message (line 135). -/
def generatePerceptualHash (fetchResult : Except String ImageMeta)
    (sample : Option CropRect → List ℕ) (boundingBox : Option BBox) :
    Except String String :=
  match fetchResult with
  | .error _ => .error "Failed to generate perceptual hash"
  | .ok metadata =>
    let imageWidth := effDim metadata.width
    let imageHeight := effDim metadata.height
    let crop := boundingBox.map (cropRect imageWidth imageHeight)
    .ok (hashString (sample crop))

/-! ### ClassifierGateway: `detectClothingItems` (multi-item-detection.ts)

A thrown JavaScript `Error` (plus the extra status fields the code probes)
is modelled by `JsError`; one loop iteration's body — model call, markdown
stripping, JSON parse — is modelled by an oracle `ℕ → Except JsError
ParsedResponse` from the attempt index to the parsed response or the error
thrown. -/

/-- A thrown error as inspected by the `catch` block: its message plus the
optional status/code fields probed for 429 detection. -/
structure JsError where
  message : String
  status : Option ℤ := none
  responseStatus : Option ℤ := none
  statusCode : Option ℤ := none
  code : Option ℤ := none
  errorCode : Option String := none
deriving DecidableEq

/-- A raw detected item as it appears in the parsed JSON, before validation:
absent `description`/`category` behave like `""` under the `!item.x` truthiness
test, and `bounding_box`/`confidence` may be absent or of the wrong type. -/
structure RawItem where
  description : String
  category : String
  bounding_box : Option BBox
  confidence : Option ℚ
deriving DecidableEq

/-- The parsed classifier response; `items` is `none` when the `items` key is
missing or not an array (multi-item-detection.ts, line 101). -/
structure ParsedResponse where
  items : Option (List RawItem)
deriving DecidableEq

/-- The candidate filter (multi-item-detection.ts, lines 105–112): drop items
with a falsy description or category, no bounding box, or a non-number
confidence; keep the rest only when `confidence > 0.5`. -/
def keepItem (item : RawItem) : Bool :=
  if item.description = "" ∨ item.category = "" ∨ item.bounding_box = none ∨
      item.confidence = none then
    false
  else
    match item.confidence with
    | some c => c > 1 / 2
    | none => false

/-- `filteredItems = parsed.items.filter(...)`. -/
def filteredItems (items : List RawItem) : List RawItem := items.filter keepItem

/-- `message.toLowerCase()`, character by character. -/
def lowerStr (s : String) : String := String.mk (s.toList.map Char.toLower)

/-- Rate-limit classification (multi-item-detection.ts, lines 136–147):
message substrings or any of the probed status fields equal to 429 /
RESOURCE_EXHAUSTED. -/
def isRateLimitError (e : JsError) : Bool :=
  strHas e.message "rate limit" || strHas e.message "429" ||
    strHas (lowerStr e.message) "too many requests" ||
    strHas e.message "RESOURCE_EXHAUSTED" || strHas e.message "quota" ||
    e.status == some 429 || e.responseStatus == some 429 ||
    e.statusCode == some 429 || e.code == some 429 ||
    e.errorCode == some "RESOURCE_EXHAUSTED"

/-- `imageUrl.substring(0, 100)`. -/
def takeChars (s : String) (n : ℕ) : String := String.mk (s.toList.take n)

/-- The message thrown once retries are exhausted on a rate-limit error
(multi-item-detection.ts, line 167): a fixed template followed by the
underlying message. The template carries no attempt count. -/
def rateLimitExceededMessage (m : String) : String :=
  "Gemini API rate limit exceeded. Please wait a few minutes and try again. If this persists, you may need to upgrade your Gemini API plan. Original error: " ++ m

/-- Final error classification once no retry will happen
(multi-item-detection.ts, lines 159–180): auth, rate-limit-exceeded,
inaccessible image, already-descriptive, or generic wrap. Non-`Error` throwables
(line 184) are outside the model: every thrown value is a `JsError`. -/
def handleFinalError (imageUrl : String) (e : JsError) : String :=
  if strHas e.message "API key" || strHas e.message "authentication" ||
      strHas e.message "API_KEY_INVALID" then
    "Gemini API authentication failed. Please check that GEMINI_API_KEY is set correctly in your .env.local file. Original error: " ++ e.message
  else if isRateLimitError e then
    rateLimitExceededMessage e.message
  else if strHas e.message "image" &&
      (strHas e.message "invalid" || strHas e.message "not found") then
    "Failed to access image at URL: " ++ takeChars imageUrl 100 ++ "... The image may not be publicly accessible or the URL may be invalid. Original error: " ++ e.message
  else if strHas e.message "Failed to detect clothing items" then
    e.message
  else
    "Failed to detect clothing items in image: " ++ e.message

/-- The code after the `for` loop (multi-item-detection.ts, lines 189–196),
keyed on the saved `lastError`. (Unreachable from `detectClothingItems`:
every iteration returns, throws, or continues, and the last iteration cannot
continue.) -/
def postLoopError (lastError : Option JsError) : String :=
  match lastError with
  | some le =>
    if strHas le.message "rate limit" || strHas le.message "429" ||
        strHas le.message "RESOURCE_EXHAUSTED" then
      "Gemini API rate limit exceeded after 4 attempts. Please wait a few minutes and try again. If this persists, you may need to upgrade your Gemini API plan. Original error: " ++ le.message
    else le.message
  | none => "Failed to detect clothing items: Unknown error occurred"

instance instDecEqExcept {ε α : Type} [DecidableEq ε] [DecidableEq α] :
    DecidableEq (Except ε α) := fun a b =>
  match a, b with
  | .ok x, .ok y =>
    decidable_of_iff (x = y) ⟨fun h => by rw [h], fun h => by injection h⟩
  | .error x, .error y =>
    decidable_of_iff (x = y) ⟨fun h => by rw [h], fun h => by injection h⟩
  | .ok _, .error _ => isFalse (fun h => Except.noConfusion h)
  | .error _, .ok _ => isFalse (fun h => Except.noConfusion h)

/-- Outcome of one whole `detectClothingItems` call: the returned items or the
thrown message, the backoff waits performed (in ms, in order), and how many
attempts (loop iterations reaching the body) were made. -/
structure DetectResult where
  outcome : Except String (List RawItem)
  waits : List ℕ
  attempts : ℕ
deriving DecidableEq

/-- One iteration's `try` body: take the oracle's parsed response (or thrown
error), reject a missing `items` array (line 102, thrown inside the `try`,
hence classified by the same `catch`), and filter the candidates. -/
def attemptBody (raw : Except JsError ParsedResponse) :
    Except JsError (List RawItem) :=
  match raw with
  | .error e => .error e
  | .ok parsed =>
    match parsed.items with
    | none => .error { message := "Gemini API response is missing or invalid \"items\" array" }
    | some items => .ok (filteredItems items)

/-- `maxRetries = 3` (multi-item-detection.ts, line 44). -/
def maxRetries : ℕ := 3

/-- The retry loop `for (attempt = 0; attempt <= maxRetries; attempt++)`,
with fuel `maxRetries + 1 - attempt`: on a rate-limit error with retries left,
wait `2^attempt * 1000` ms and continue; otherwise classify and throw. -/
def detectGo (imageUrl : String) (body : ℕ → Except JsError ParsedResponse) :
    ℕ → ℕ → Option JsError → List ℕ → DetectResult
  | 0, attempt, lastError, waits =>
    ⟨.error (postLoopError lastError), waits.reverse, attempt⟩
  | fuel + 1, attempt, _, waits =>
    match attemptBody (body attempt) with
    | .ok items => ⟨.ok items, waits.reverse, attempt + 1⟩
    | .error e =>
      if isRateLimitError e ∧ attempt < maxRetries then
        detectGo imageUrl body fuel (attempt + 1) (some e)
          (2 ^ attempt * 1000 :: waits)
      else
        ⟨.error (handleFinalError imageUrl e), waits.reverse, attempt + 1⟩

/-- The guard `!imageUrl || imageUrl.trim() === ''`: the URL is empty or all
whitespace. (`trim() === ''` holds exactly when every character is
whitespace, which also covers the empty string.) -/
def isBlank (s : String) : Bool := s.toList.all Char.isWhitespace

/-- `detectClothingItems` (multi-item-detection.ts, lines 33–197): validate the
API key and the image URL, then run the retry loop. `apiKeyConfigured` models
the presence of `process.env.GEMINI_API_KEY`. -/
def detectClothingItems (apiKeyConfigured : Bool) (imageUrl : String)
    (body : ℕ → Except JsError ParsedResponse) : DetectResult :=
  if !apiKeyConfigured then
    ⟨.error "GEMINI_API_KEY is not configured. Please set it in your .env.local file.", [], 0⟩
  else if isBlank imageUrl then
    ⟨.error "Invalid image URL: imageUrl is required and must be a non-empty string", [], 0⟩
  else
    detectGo imageUrl body (maxRetries + 1) 0 none []

/-! ### MergeEngine and IngestionPipeline (`processClothingItems` / `mergeItem`)

The Supabase repository is modelled as an in-memory list of stored rows, the
two Gemini calls (`generatePerceptualHash` on the URL and
`analyzeClothingImage`) as fallible oracles in `PipelineEnv`, and the
database-generated id as a deterministic oracle of the current table size.
Database reads/writes themselves are modelled as always succeeding; the
fallible steps of a resolution are the hash, the analysis, and the merge
refetch. -/

/-- `ClothingMetadata` (vision.ts, lines 5–12). -/
structure ClothingMetadata where
  category : String
  sub_category : String
  primary_color : String
  secondary_colors : List String
  vibe_tags : List String
  estimated_season : String
deriving DecidableEq

/-- The metadata read out of `existingItem.ai_metadata || {}` when the column
is null: every field access on `{}` yields `undefined`, which behaves as `""`
under `||` and as `[]` under `x || []`. -/
def emptyMetadata : ClothingMetadata :=
  ⟨"", "", "", [], [], ""⟩

/-- JavaScript `a || b` on strings: `b` when `a` is the empty string. -/
def jsOr (a b : String) : String := if a = "" then b else a

/-- First-occurrence deduplication: the behaviour of both
`Array.from(new Set(xs))` and `xs.filter((v, i, a) => a.indexOf(v) === i)`. -/
def dedupKeepFirst (seen : List String) : List String → List String
  | [] => []
  | x :: xs =>
    if x ∈ seen then dedupKeepFirst seen xs
    else x :: dedupKeepFirst (x :: seen) xs

/-- The metadata combination in `mergeItem` (part_011, lines 176–198): object
spread of the new metadata over the old, then explicit overrides for
`vibe_tags`, the three scalar fields (JS `||`), and `secondary_colors`.
`estimated_season` has no override, so the spread leaves it at the new value
unconditionally. -/
def mergeMetadata (existingMetadata newMetadata : ClothingMetadata) :
    ClothingMetadata :=
  { category := jsOr newMetadata.category existingMetadata.category
    sub_category := jsOr newMetadata.sub_category existingMetadata.sub_category
    primary_color := jsOr newMetadata.primary_color existingMetadata.primary_color
    secondary_colors := dedupKeepFirst []
      (existingMetadata.secondary_colors ++ newMetadata.secondary_colors)
    vibe_tags := dedupKeepFirst []
      (existingMetadata.vibe_tags ++ newMetadata.vibe_tags)
    estimated_season := newMetadata.estimated_season }

/-- The `image_urls` JSON column value. -/
structure ImageUrls where
  primary : String
  variants : List String
deriving DecidableEq

/-- A `clothing_items` row, with the columns this core touches; `image_urls`
and `ai_metadata` are nullable JSON columns. -/
structure StoredItem where
  id : String
  user_id : String
  image_urls : Option ImageUrls
  perceptual_hash : String
  ai_metadata : Option ClothingMetadata
deriving DecidableEq

/-- The repository table. -/
abbrev Repo := List StoredItem

/-- The candidate input to `processClothingItems` (part_011, lines 15–25). -/
structure ProcessItemInput where
  imageUrl : String
  description : Option String
  category : Option String
  boundingBox : Option BBox
deriving DecidableEq

/-- The per-candidate outcome (part_011, lines 8–13). -/
structure ProcessedItem where
  id : String
  merged : Bool
  existingItemId : Option String
  imageAdded : Option Bool
deriving DecidableEq

/-- The environment of external effects: `hash` models
`generatePerceptualHash(imageUrl, boundingBox)`, `analyze` models
`analyzeClothingImage(imageUrl, description?)` (both can throw), and `newId`
models the database-generated id for the `n`-th inserted row. -/
structure PipelineEnv where
  hash : String → Option BBox → Except String String
  analyze : String → Option String → Except String ClothingMetadata
  newId : ℕ → String

/-- `.eq('user_id', userId).eq('perceptual_hash', hash).single()`:
the first row for this owner with this exact signature, if any. -/
def findBySignature (repo : Repo) (userId hash : String) : Option StoredItem :=
  repo.find? (fun s => s.user_id = userId ∧ s.perceptual_hash = hash)

/-- `.eq('id', existingItemId).eq('user_id', userId).single()`. -/
def findById (repo : Repo) (existingItemId userId : String) : Option StoredItem :=
  repo.find? (fun s => s.id = existingItemId ∧ s.user_id = userId)

/-- `mergeItem` (part_011, lines 150–217): refetch the existing row (throwing
when it is gone), append the new URL to `variants` unconditionally, re-analyze
the new image, combine the metadata, and write the row back. Returns the
updated row and the updated table. -/
def mergeItem (env : PipelineEnv) (repo : Repo)
    (existingItemId newImageUrl userId : String) :
    Except String (StoredItem × Repo) :=
  match findById repo existingItemId userId with
  | none => .error "Existing item not found"
  | some existingItem =>
    let imageUrls := existingItem.image_urls.getD ⟨"", []⟩
    let variants := imageUrls.variants ++ [newImageUrl]
    match env.analyze newImageUrl none with
    | .error e => .error e
    | .ok newMetadata =>
      let existingMetadata := existingItem.ai_metadata.getD emptyMetadata
      let mergedMetadata := mergeMetadata existingMetadata newMetadata
      let updatedItem : StoredItem :=
        { existingItem with
          image_urls := some ⟨imageUrls.primary, variants⟩
          ai_metadata := some mergedMetadata }
      .ok (updatedItem,
        repo.map (fun s => if s.id = existingItemId then updatedItem else s))

/-- The insert of the create path (part_011, lines 104–120): a fresh row with
`image_urls = { primary: imageUrl, variants: [] }`. -/
def insertItem (env : PipelineEnv) (repo : Repo)
    (userId imageUrl hash : String) (metadata : ClothingMetadata) :
    StoredItem × Repo :=
  let newItem : StoredItem :=
    { id := env.newId repo.length
      user_id := userId
      image_urls := some ⟨imageUrl, []⟩
      perceptual_hash := hash
      ai_metadata := some metadata }
  (newItem, repo ++ [newItem])

/-- The body of the per-candidate `try` block (part_011, lines 38–131):
hash, exact-match lookup, then merge or analyze-and-create. The similarity
query (lines 91–96) reads candidates but uses none of them, so it does not
appear in the state. -/
def resolveOne (env : PipelineEnv) (userId : String) (repo : Repo)
    (item : ProcessItemInput) : Except String (ProcessedItem × Repo) :=
  match env.hash item.imageUrl item.boundingBox with
  | .error e => .error e
  | .ok perceptualHash =>
    match findBySignature repo userId perceptualHash with
    | some exactMatch =>
      match mergeItem env repo exactMatch.id item.imageUrl userId with
      | .error e => .error e
      | .ok (merged, repo') =>
        .ok (⟨merged.id, true, some exactMatch.id, some true⟩, repo')
    | none =>
      match env.analyze item.imageUrl item.description with
      | .error e => .error e
      | .ok metadata =>
        let (newItem, repo') :=
          insertItem env repo userId item.imageUrl perceptualHash metadata
        .ok (⟨newItem.id, false, none, none⟩, repo')

/-- The failure outcome pushed by the `catch` block (part_011, lines 137–140). -/
def failureOutcome : ProcessedItem := ⟨"", false, none, none⟩

/-- `processClothingItems` (part_011, lines 30–145): resolve each candidate in
order against the evolving repository; a throw inside one candidate's `try` is
caught, recorded as `failureOutcome`, and processing continues. -/
def processClothingItems (env : PipelineEnv) (userId : String) (repo : Repo) :
    List ProcessItemInput → List ProcessedItem × Repo
  | [] => ([], repo)
  | item :: rest =>
    match resolveOne env userId repo item with
    | .ok (outcome, repo') =>
      let (outcomes, repoEnd) := processClothingItems env userId repo' rest
      (outcome :: outcomes, repoEnd)
    | .error _ =>
      let (outcomes, repoEnd) := processClothingItems env userId repo rest
      (failureOutcome :: outcomes, repoEnd)

/-! ## Theorems settling the claims -/

/-- C10: `hammingDistance` fails with the length-mismatch error whenever the
two signatures have different lengths (in particular for a 4-bit versus a
6-bit signature), and on equal lengths returns the number of positions at
which the two signatures differ. -/
theorem hammingDistance_spec :
    (∀ a b : String, a.length ≠ b.length →
      hammingDistance a b = .error "Hashes must be of equal length") ∧
    hammingDistance "0101" "010101" = .error "Hashes must be of equal length" ∧
    (∀ a b : String, a.length = b.length →
      hammingDistance a b = .ok (differingPositions a.toList b.toList).length) := by
  refine ⟨fun a b h => by simp [hammingDistance, h], by decide, fun a b h => ?_⟩
  have hlist : a.toList.length = b.toList.length := h
  unfold hammingDistance
  rw [if_neg (by simp [h]), hdLoop_eq_differingPositions a.toList b.toList hlist]

/-- Witness for C10 at concrete signatures: the 4-bit/6-bit mismatch fails and
`"1010"` vs `"1001"` differ at two positions. -/
theorem hammingDistance_spec_witness :
    hammingDistance "0101" "010101" = .error "Hashes must be of equal length" ∧
    hammingDistance "1010" "1001" =
      .ok (differingPositions "1010".toList "1001".toList).length ∧
    (differingPositions "1010".toList "1001".toList).length = 2 :=
  ⟨hammingDistance_spec.2.1, hammingDistance_spec.2.2 "1010" "1001" (by decide),
    by decide⟩

/-- C7: the fingerprinter converts a percentage region to pixels with
`round(pct/100 * dim)` and clamps exactly as the spec states, so for any image
with positive dimensions the crop lies fully inside the image with width and
height at least 1; the region `(-10, 120, 150, 50)` on a 100×100 image becomes
the in-bounds crop `(0, 99, 100, 1)`, and a region that rounds to zero size is
coerced to a 1×1 crop. -/
theorem cropRect_spec (W H : ℕ) (bb : BBox) (hW : 1 ≤ W) (hH : 1 ≤ H) :
    (cropRect W H bb).left = clamp 0 ((W : ℤ) - 1) (jsRound (bb.x / 100 * W)) ∧
    (cropRect W H bb).top = clamp 0 ((H : ℤ) - 1) (jsRound (bb.y / 100 * H)) ∧
    (cropRect W H bb).width =
      clamp 1 ((W : ℤ) - (cropRect W H bb).left) (jsRound (bb.width / 100 * W)) ∧
    (cropRect W H bb).height =
      clamp 1 ((H : ℤ) - (cropRect W H bb).top) (jsRound (bb.height / 100 * H)) ∧
    0 ≤ (cropRect W H bb).left ∧ (cropRect W H bb).left ≤ (W : ℤ) - 1 ∧
    0 ≤ (cropRect W H bb).top ∧ (cropRect W H bb).top ≤ (H : ℤ) - 1 ∧
    1 ≤ (cropRect W H bb).width ∧
    (cropRect W H bb).left + (cropRect W H bb).width ≤ (W : ℤ) ∧
    1 ≤ (cropRect W H bb).height ∧
    (cropRect W H bb).top + (cropRect W H bb).height ≤ (H : ℤ) ∧
    cropRect 100 100 ⟨-10, 120, 150, 50⟩ = ⟨0, 99, 100, 1⟩ ∧
    (cropRect 100 100 ⟨50, 50, 1/4, 1/4⟩).width = 1 ∧
    (cropRect 100 100 ⟨50, 50, 1/4, 1/4⟩).height = 1 := by
  have hW1 : (1 : ℤ) ≤ (W : ℤ) := by exact_mod_cast hW
  have hH1 : (1 : ℤ) ≤ (H : ℤ) := by exact_mod_cast hH
  refine ⟨rfl, rfl, ?_, ?_, ?_⟩
  · simp only [cropRect, clamp]
  · simp only [cropRect, clamp]
  · simp only [cropRect]
    refine ⟨le_max_left _ _, max_le (by omega) (min_le_right _ _), le_max_left _ _,
      max_le (by omega) (min_le_right _ _), le_max_left _ _, ?_, le_max_left _ _, ?_,
      by norm_num [cropRect, jsRound, CropRect.mk.injEq],
      by norm_num [cropRect, jsRound],
      by norm_num [cropRect, jsRound]⟩
    · have h1 : max 0 (min (jsRound (bb.x / 100 * W)) ((W : ℤ) - 1)) ≤ (W : ℤ) - 1 :=
        max_le (by omega) (min_le_right _ _)
      have h2 : max 1 (min (jsRound (bb.width / 100 * W))
          ((W : ℤ) - max 0 (min (jsRound (bb.x / 100 * W)) ((W : ℤ) - 1)))) ≤
          (W : ℤ) - max 0 (min (jsRound (bb.x / 100 * W)) ((W : ℤ) - 1)) :=
        max_le (by omega) (min_le_right _ _)
      omega
    · have h1 : max 0 (min (jsRound (bb.y / 100 * H)) ((H : ℤ) - 1)) ≤ (H : ℤ) - 1 :=
        max_le (by omega) (min_le_right _ _)
      have h2 : max 1 (min (jsRound (bb.height / 100 * H))
          ((H : ℤ) - max 0 (min (jsRound (bb.y / 100 * H)) ((H : ℤ) - 1)))) ≤
          (H : ℤ) - max 0 (min (jsRound (bb.y / 100 * H)) ((H : ℤ) - 1)) :=
        max_le (by omega) (min_le_right _ _)
      omega

/-- Witness for C7 at a concrete region and image size. -/
theorem cropRect_spec_witness :
    (1 ≤ 100 ∧ 1 ≤ 100) ∧ cropRect 100 100 ⟨-10, 120, 150, 50⟩ = ⟨0, 99, 100, 1⟩ :=
  ⟨⟨by decide, by decide⟩,
    ((cropRect_spec 100 100 ⟨-10, 120, 150, 50⟩ (by decide)
      (by decide)).2.2.2.2.2.2.2.2.2.2.2.2.1)⟩

/-- C8 counterexample: a source image whose decoded metadata declares zero
width and zero height is hashed successfully — `metadata.width || 1` coerces
both dimensions to 1 — instead of failing with an image-fetch error. -/
theorem zeroDim_image_hashes_successfully :
    generatePerceptualHash (.ok ⟨some 0, some 0⟩)
        (fun _ => List.replicate 64 0) (some ⟨0, 0, 100, 100⟩) =
      .ok (String.mk (List.replicate 64 '0')) ∧
    effDim (some 0) = 1 := by
  constructor
  · simp [generatePerceptualHash, effDim, hashString]
  · rfl

/-- C8 amended: a declared zero (or missing) width or height is silently
coerced to 1 by the `|| 1` fallback and hashing proceeds; only a failed
fetch/decode produces the failure, with its single fixed message. -/
theorem generatePerceptualHash_zeroDim_policy (meta : ImageMeta)
    (sample : Option CropRect → List ℕ) (bb : Option BBox) (e : String) :
    (generatePerceptualHash (.ok meta) sample bb).isOk = true ∧
    effDim (some 0) = 1 ∧ effDim none = 1 ∧
    generatePerceptualHash (.error e) sample bb =
      .error "Failed to generate perceptual hash" := by
  exact ⟨rfl, rfl, rfl, rfl⟩

/-- Items of the concrete C6 example: confidences 0.9, 0.3, 0.6. -/
def rawA : RawItem := ⟨"blue denim jacket", "jacket", some ⟨10, 10, 40, 60⟩, some (9 / 10)⟩

def rawB : RawItem := ⟨"white t-shirt", "shirt", some ⟨30, 20, 30, 40⟩, some (3 / 10)⟩

def rawC : RawItem := ⟨"black jeans", "pants", some ⟨20, 50, 35, 45⟩, some (6 / 10)⟩

/-- C6: a candidate is retained by the detection filter iff it has a non-empty
description, a non-empty category, a bounding region, and a numeric confidence
strictly above 0.5; confidences 0.9/0.3/0.6 keep exactly the first and third
candidates; and a response whose candidates are all filtered out yields an
empty item list, not an error. -/
theorem detection_filter_spec :
    (∀ (item : RawItem) (items : List RawItem),
      item ∈ filteredItems items ↔
        item ∈ items ∧ item.description ≠ "" ∧ item.category ≠ "" ∧
          item.bounding_box ≠ none ∧ ∃ c, item.confidence = some c ∧ 1 / 2 < c) ∧
    filteredItems [rawA, rawB, rawC] = [rawA, rawC] ∧
    detectClothingItems true "http://example.com/look.jpg"
        (fun _ => .ok ⟨some [rawB]⟩) = ⟨.ok [], [], 1⟩ := by
  have hB : keepItem rawB = false := by
    norm_num [keepItem, rawB]
  have hconc : filteredItems [rawA, rawB, rawC] = [rawA, rawC] := by
    norm_num [filteredItems, keepItem, rawA, rawB, rawC, List.filter]
    simp
  have hurl : isBlank "http://example.com/look.jpg" = false := by decide
  refine ⟨fun item items => ?_, hconc,
    by simp [detectClothingItems, hurl, detectGo, maxRetries, attemptBody,
      filteredItems, hB]⟩
  rw [filteredItems, List.mem_filter]
  constructor
  · rintro ⟨hmem, hkeep⟩
    refine ⟨hmem, ?_⟩
    rw [keepItem] at hkeep
    by_cases hbad : item.description = "" ∨ item.category = "" ∨
        item.bounding_box = none ∨ item.confidence = none
    · rw [if_pos hbad] at hkeep; exact absurd hkeep (by simp)
    · rw [if_neg hbad] at hkeep
      push_neg at hbad
      obtain ⟨h1, h2, h3, h4⟩ := hbad
      rcases hc : item.confidence with _ | c
      · exact absurd hc h4
      · rw [hc] at hkeep
        refine ⟨h1, h2, h3, c, rfl, by simpa using hkeep⟩
  · rintro ⟨hmem, h1, h2, h3, c, hc, hgt⟩
    refine ⟨hmem, ?_⟩
    rw [keepItem, if_neg (by simp [h1, h2, h3, hc]), hc]
    simpa using hgt

/-! Helper lemmas for running the retry loop. -/

theorem detectGo_zero (imageUrl : String) (body : ℕ → Except JsError ParsedResponse)
    (attempt : ℕ) (lastError : Option JsError) (waits : List ℕ) :
    detectGo imageUrl body 0 attempt lastError waits =
      ⟨.error (postLoopError lastError), waits.reverse, attempt⟩ := rfl

theorem detectGo_ok_step (imageUrl : String) (body : ℕ → Except JsError ParsedResponse)
    (fuel attempt : ℕ) (lastError : Option JsError) (waits : List ℕ)
    (items : List RawItem) (h : attemptBody (body attempt) = .ok items) :
    detectGo imageUrl body (fuel + 1) attempt lastError waits =
      ⟨.ok items, waits.reverse, attempt + 1⟩ := by
  rw [detectGo, h]

theorem detectGo_rl_step (imageUrl : String) (body : ℕ → Except JsError ParsedResponse)
    (fuel attempt : ℕ) (lastError : Option JsError) (waits : List ℕ)
    (e : JsError) (h : attemptBody (body attempt) = .error e)
    (hrl : isRateLimitError e = true) (hlt : attempt < maxRetries) :
    detectGo imageUrl body (fuel + 1) attempt lastError waits =
      detectGo imageUrl body fuel (attempt + 1) (some e)
        (2 ^ attempt * 1000 :: waits) := by
  rw [detectGo, h]
  simp only [hrl, hlt, and_true, if_pos, true_and]

theorem detectGo_fail_step (imageUrl : String) (body : ℕ → Except JsError ParsedResponse)
    (fuel attempt : ℕ) (lastError : Option JsError) (waits : List ℕ)
    (e : JsError) (h : attemptBody (body attempt) = .error e)
    (hstop : ¬(isRateLimitError e = true ∧ attempt < maxRetries)) :
    detectGo imageUrl body (fuel + 1) attempt lastError waits =
      ⟨.error (handleFinalError imageUrl e), waits.reverse, attempt + 1⟩ := by
  rw [detectGo, h]
  simp only [if_neg hstop]

theorem detectGo_attempts_le (imageUrl : String)
    (body : ℕ → Except JsError ParsedResponse) :
    ∀ (fuel attempt : ℕ) (lastError : Option JsError) (waits : List ℕ),
      (detectGo imageUrl body fuel attempt lastError waits).attempts ≤ attempt + fuel := by
  intro fuel
  induction fuel with
  | zero => intro attempt le ws; simp [detectGo_zero]
  | succ n ih =>
    intro attempt le ws
    cases h : attemptBody (body attempt) with
    | ok items => rw [detectGo_ok_step _ _ _ _ _ _ _ h]; dsimp only; omega
    | error e =>
      by_cases hc : isRateLimitError e = true ∧ attempt < maxRetries
      · rw [detectGo_rl_step _ _ _ _ _ _ _ h hc.1 hc.2]
        have := ih (attempt + 1) (some e) (2 ^ attempt * 1000 :: ws)
        omega
      · rw [detectGo_fail_step _ _ _ _ _ _ _ h hc]; dsimp only; omega

/-- Shared scenario: three rate-limited failures and then a successful body. -/
theorem detect_three_rl_then_ok (imageUrl : String)
    (body : ℕ → Except JsError ParsedResponse) (hurl : isBlank imageUrl = false)
    (e0 e1 e2 : JsError) (items : List RawItem)
    (h0 : attemptBody (body 0) = .error e0) (hrl0 : isRateLimitError e0 = true)
    (h1 : attemptBody (body 1) = .error e1) (hrl1 : isRateLimitError e1 = true)
    (h2 : attemptBody (body 2) = .error e2) (hrl2 : isRateLimitError e2 = true)
    (h3 : attemptBody (body 3) = .ok items) :
    detectClothingItems true imageUrl body = ⟨.ok items, [1000, 2000, 4000], 4⟩ := by
  have hrun : detectClothingItems true imageUrl body =
      detectGo imageUrl body (maxRetries + 1) 0 none [] := by
    simp [detectClothingItems, hurl]
  rw [hrun,
    detectGo_rl_step imageUrl body maxRetries 0 none [] e0 h0 hrl0 (by decide),
    show maxRetries = 2 + 1 from rfl,
    detectGo_rl_step imageUrl body 2 1 (some e0) _ e1 h1 hrl1 (by decide),
    detectGo_rl_step imageUrl body 1 2 (some e1) _ e2 h2 hrl2 (by decide),
    detectGo_ok_step imageUrl body 0 3 (some e2) _ items h3]
  simp

/-- Shared scenario: four rate-limited failures exhaust the retries. -/
theorem detect_four_rl_exhausted (imageUrl : String)
    (body : ℕ → Except JsError ParsedResponse) (hurl : isBlank imageUrl = false)
    (e0 e1 e2 e3 : JsError)
    (h0 : attemptBody (body 0) = .error e0) (hrl0 : isRateLimitError e0 = true)
    (h1 : attemptBody (body 1) = .error e1) (hrl1 : isRateLimitError e1 = true)
    (h2 : attemptBody (body 2) = .error e2) (hrl2 : isRateLimitError e2 = true)
    (h3 : attemptBody (body 3) = .error e3) (hrl3 : isRateLimitError e3 = true) :
    detectClothingItems true imageUrl body =
      ⟨.error (handleFinalError imageUrl e3), [1000, 2000, 4000], 4⟩ := by
  have hrun : detectClothingItems true imageUrl body =
      detectGo imageUrl body (maxRetries + 1) 0 none [] := by
    simp [detectClothingItems, hurl]
  rw [hrun,
    detectGo_rl_step imageUrl body maxRetries 0 none [] e0 h0 hrl0 (by decide),
    show maxRetries = 2 + 1 from rfl,
    detectGo_rl_step imageUrl body 2 1 (some e0) _ e1 h1 hrl1 (by decide),
    detectGo_rl_step imageUrl body 1 2 (some e1) _ e2 h2 hrl2 (by decide),
    detectGo_fail_step imageUrl body 0 3 (some e2) _ e3 h3 (by simp [hrl3, maxRetries])]
  simp

/-- Shared scenario: a non-rate-limit failure on the first attempt. -/
theorem detect_immediate_failure (imageUrl : String)
    (body : ℕ → Except JsError ParsedResponse) (hurl : isBlank imageUrl = false)
    (e0 : JsError) (h0 : attemptBody (body 0) = .error e0)
    (hrl0 : isRateLimitError e0 = false) :
    detectClothingItems true imageUrl body =
      ⟨.error (handleFinalError imageUrl e0), [], 1⟩ := by
  have hrun : detectClothingItems true imageUrl body =
      detectGo imageUrl body (maxRetries + 1) 0 none [] := by
    simp [detectClothingItems, hurl]
  rw [hrun, detectGo_fail_step imageUrl body maxRetries 0 none [] e0 h0
    (by simp [hrl0])]
  simp

/-- C2: the detection wrapper retries only rate-limit-classified failures,
waiting 1s, 2s, 4s between attempts; three rate-limit failures followed by a
success return the success after exactly those 3 waits on the 4th attempt; four
rate-limit failures surface the rate-limit-exceeded classification after the
4th attempt, with no 5th attempt ever made (at most 4 in every run); a
non-rate-limit failure is surfaced immediately with no wait. -/
theorem detect_retry_policy (imageUrl : String)
    (body : ℕ → Except JsError ParsedResponse) (hurl : isBlank imageUrl = false) :
    (∀ e0 e1 e2 items,
      attemptBody (body 0) = .error e0 → isRateLimitError e0 = true →
      attemptBody (body 1) = .error e1 → isRateLimitError e1 = true →
      attemptBody (body 2) = .error e2 → isRateLimitError e2 = true →
      attemptBody (body 3) = .ok items →
      detectClothingItems true imageUrl body = ⟨.ok items, [1000, 2000, 4000], 4⟩) ∧
    (∀ e0 e1 e2 e3,
      attemptBody (body 0) = .error e0 → isRateLimitError e0 = true →
      attemptBody (body 1) = .error e1 → isRateLimitError e1 = true →
      attemptBody (body 2) = .error e2 → isRateLimitError e2 = true →
      attemptBody (body 3) = .error e3 → isRateLimitError e3 = true →
      detectClothingItems true imageUrl body =
        ⟨.error (handleFinalError imageUrl e3), [1000, 2000, 4000], 4⟩) ∧
    (∀ e0, attemptBody (body 0) = .error e0 → isRateLimitError e0 = false →
      detectClothingItems true imageUrl body =
        ⟨.error (handleFinalError imageUrl e0), [], 1⟩) ∧
    (detectClothingItems true imageUrl body).attempts ≤ 4 := by
  refine ⟨fun e0 e1 e2 items h0 hrl0 h1 hrl1 h2 hrl2 h3 =>
      detect_three_rl_then_ok imageUrl body hurl e0 e1 e2 items h0 hrl0 h1 hrl1 h2 hrl2 h3,
    fun e0 e1 e2 e3 h0 hrl0 h1 hrl1 h2 hrl2 h3 hrl3 =>
      detect_four_rl_exhausted imageUrl body hurl e0 e1 e2 e3 h0 hrl0 h1 hrl1 h2 hrl2 h3 hrl3,
    fun e0 h0 hrl0 => detect_immediate_failure imageUrl body hurl e0 h0 hrl0,
    ?_⟩
  have hrun : detectClothingItems true imageUrl body =
      detectGo imageUrl body (maxRetries + 1) 0 none [] := by
    simp [detectClothingItems, hurl]
  rw [hrun]
  exact detectGo_attempts_le imageUrl body (maxRetries + 1) 0 none []

/-- A rate-limited thrown error, as matched by the message heuristics. -/
def rlHitErr : JsError := { message := "rate limit hit" }

/-- A non-rate-limit thrown error (a parse failure). -/
def parseErr : JsError := { message := "Failed to parse Gemini response as JSON: Unexpected token" }

/-- Body oracle: rate-limited on attempts 0–2, then a parseable response whose
`items` array is empty. -/
def bodyRL3 : ℕ → Except JsError ParsedResponse := fun i =>
  if i < 3 then .error rlHitErr else .ok ⟨some []⟩

/-- Body oracle: rate-limited on every attempt. -/
def bodyRL4 : ℕ → Except JsError ParsedResponse := fun _ => .error rlHitErr

/-- Body oracle: a non-rate-limit failure on every attempt. -/
def bodyParseFail : ℕ → Except JsError ParsedResponse := fun _ => .error parseErr

/-- Witness for C2 on concrete oracles: three rate-limit failures then success
(3 waits, 4 attempts), four rate-limit failures (rate-limit-exceeded, 4
attempts), and an immediate non-rate-limit failure (no waits, 1 attempt). -/
theorem detect_retry_policy_witness :
    detectClothingItems true "http://img.example/a.jpg" bodyRL3 =
      ⟨.ok [], [1000, 2000, 4000], 4⟩ ∧
    detectClothingItems true "http://img.example/a.jpg" bodyRL4 =
      ⟨.error (handleFinalError "http://img.example/a.jpg" rlHitErr),
        [1000, 2000, 4000], 4⟩ ∧
    detectClothingItems true "http://img.example/a.jpg" bodyParseFail =
      ⟨.error (handleFinalError "http://img.example/a.jpg" parseErr), [], 1⟩ :=
  ⟨(detect_retry_policy "http://img.example/a.jpg" bodyRL3 (by decide)).1
      rlHitErr rlHitErr rlHitErr [] (by decide) (by decide) (by decide)
      (by decide) (by decide) (by decide) (by decide),
    (detect_retry_policy "http://img.example/a.jpg" bodyRL4 (by decide)).2.1
      rlHitErr rlHitErr rlHitErr rlHitErr (by decide) (by decide) (by decide)
      (by decide) (by decide) (by decide) (by decide) (by decide),
    (detect_retry_policy "http://img.example/a.jpg" bodyParseFail (by decide)).2.2.1
      parseErr (by decide) (by decide)⟩

/-- A rate-limited error whose message is just "quota". -/
def quotaErr : JsError := { message := "quota" }

/-- Body oracle: quota-rate-limited on every attempt. -/
def bodyQuota : ℕ → Except JsError ParsedResponse := fun _ => .error quotaErr

/-- C5 counterexample: after four quota failures, the surfaced error message is
the fixed rate-limit-exceeded template plus the last underlying message
"quota"; it contains the underlying message but no digit `4` and no occurrence
of "attempt" — so it does not embed the attempt count. (The post-loop message
that does mention "4 attempts" is unreachable: the final iteration throws from
inside the catch block.) -/
theorem rateLimitExceeded_lacks_attempt_count :
    (detectClothingItems true "http://img.example/b.jpg" bodyQuota).outcome =
      .error (rateLimitExceededMessage "quota") ∧
    strHas (rateLimitExceededMessage "quota") "quota" = true ∧
    strHas (rateLimitExceededMessage "quota") "4" = false ∧
    strHas (rateLimitExceededMessage "quota") "attempt" = false := by
  refine ⟨?_, by decide, by decide, by decide⟩
  rw [detect_four_rl_exhausted "http://img.example/b.jpg" bodyQuota (by decide)
    quotaErr quotaErr quotaErr quotaErr rfl (by decide) rfl (by decide) rfl
    (by decide) rfl (by decide)]
  have : handleFinalError "http://img.example/b.jpg" quotaErr =
      rateLimitExceededMessage "quota" := by decide
  rw [this]

/-- C5 amended: after retries are exhausted on rate-limit errors, the surfaced
error embeds the last underlying error message (appended after "Original
error:"), but not the attempt count — the message is the fixed
attempt-count-free template around the last message (provided the last message
carries none of the auth markers checked first). -/
theorem detect_rateLimitExceeded_embeds_last_message (imageUrl : String)
    (body : ℕ → Except JsError ParsedResponse) (hurl : isBlank imageUrl = false)
    (e0 e1 e2 e3 : JsError)
    (h0 : attemptBody (body 0) = .error e0) (hrl0 : isRateLimitError e0 = true)
    (h1 : attemptBody (body 1) = .error e1) (hrl1 : isRateLimitError e1 = true)
    (h2 : attemptBody (body 2) = .error e2) (hrl2 : isRateLimitError e2 = true)
    (h3 : attemptBody (body 3) = .error e3) (hrl3 : isRateLimitError e3 = true)
    (hna1 : strHas e3.message "API key" = false)
    (hna2 : strHas e3.message "authentication" = false)
    (hna3 : strHas e3.message "API_KEY_INVALID" = false) :
    (detectClothingItems true imageUrl body).outcome =
      .error (rateLimitExceededMessage e3.message) ∧
    strHas (rateLimitExceededMessage e3.message) e3.message = true := by
  constructor
  · rw [detect_four_rl_exhausted imageUrl body hurl e0 e1 e2 e3 h0 hrl0 h1 hrl1
      h2 hrl2 h3 hrl3]
    dsimp only
    rw [handleFinalError, if_neg (by simp [hna1, hna2, hna3]), if_pos hrl3]
  · show hasSub e3.message.toList
      ("Gemini API rate limit exceeded. Please wait a few minutes and try again. If this persists, you may need to upgrade your Gemini API plan. Original error: ".toList ++ e3.message.toList) = true
    exact hasSub_of_suffix _ _

/-- Witness for the amended C5 at the concrete quota scenario. -/
theorem detect_rateLimitExceeded_embeds_last_message_witness :
    (detectClothingItems true "http://img.example/b.jpg" bodyQuota).outcome =
      .error (rateLimitExceededMessage "quota") ∧
    strHas (rateLimitExceededMessage "quota") "quota" = true :=
  detect_rateLimitExceeded_embeds_last_message "http://img.example/b.jpg"
    bodyQuota (by decide) quotaErr quotaErr quotaErr quotaErr rfl (by decide)
    rfl (by decide) rfl (by decide) rfl (by decide) (by decide) (by decide)
    (by decide)

/-! Helper lemmas on first-occurrence deduplication. -/

theorem mem_dedupKeepFirst (l : List String) :
    ∀ (seen : List String) (x : String),
      x ∈ dedupKeepFirst seen l ↔ x ∈ l ∧ x ∉ seen := by
  induction l with
  | nil => intro seen x; simp [dedupKeepFirst]
  | cons a as ih =>
    intro seen x
    by_cases ha : a ∈ seen
    · rw [dedupKeepFirst, if_pos ha, ih]
      constructor
      · rintro ⟨hx, hs⟩; exact ⟨List.mem_cons_of_mem _ hx, hs⟩
      · rintro ⟨hx, hs⟩
        rcases List.mem_cons.mp hx with rfl | hx
        · exact absurd ha hs
        · exact ⟨hx, hs⟩
    · rw [dedupKeepFirst, if_neg ha]
      constructor
      · intro hx
        rcases List.mem_cons.mp hx with rfl | hx
        · exact ⟨List.mem_cons_self _ _, ha⟩
        · obtain ⟨h1, h2⟩ := (ih (a :: seen) x).mp hx
          exact ⟨List.mem_cons_of_mem _ h1,
            fun hs => h2 (List.mem_cons_of_mem _ hs)⟩
      · rintro ⟨hx, hs⟩
        by_cases hxa : x = a
        · subst hxa; exact List.mem_cons_self _ _
        · rcases List.mem_cons.mp hx with rfl | hx
          · exact absurd rfl hxa
          · exact List.mem_cons_of_mem _
              ((ih (a :: seen) x).mpr ⟨hx, by simp [hxa, hs]⟩)

theorem nodup_dedupKeepFirst (l : List String) :
    ∀ seen : List String, (dedupKeepFirst seen l).Nodup := by
  induction l with
  | nil => intro seen; simp [dedupKeepFirst]
  | cons a as ih =>
    intro seen
    by_cases ha : a ∈ seen
    · rw [dedupKeepFirst, if_pos ha]; exact ih seen
    · rw [dedupKeepFirst, if_neg ha]
      refine List.nodup_cons.mpr ⟨fun hmem => ?_, ih (a :: seen)⟩
      exact ((mem_dedupKeepFirst as (a :: seen) a).mp hmem).2
        (List.mem_cons_self _ _)

/-- Existing metadata with a non-empty season, for the C4 counterexample. -/
def winterMeta : ClothingMetadata :=
  ⟨"top", "t-shirt", "blue", ["white"], ["casual"], "winter"⟩

/-- Freshly analyzed metadata whose fields are all empty. -/
def blankMeta : ClothingMetadata := ⟨"", "", "", [], [], ""⟩

/-- C4 counterexample: merging an all-empty new analysis into metadata whose
season is "winter" leaves `estimated_season` empty — the object spread lets the
empty new value overwrite the existing one, so `estimated_season` does **not**
follow the non-empty-wins rule the scalars follow. -/
theorem mergeMetadata_drops_existing_season :
    (mergeMetadata winterMeta blankMeta).estimated_season = "" ∧
    winterMeta.estimated_season = "winter" ∧
    blankMeta.estimated_season = "" ∧
    (mergeMetadata winterMeta blankMeta).estimated_season ≠
      winterMeta.estimated_season ∧
    (mergeMetadata winterMeta blankMeta).category = winterMeta.category := by
  exact ⟨rfl, rfl, rfl, by decide, by decide⟩

/-- C4 amended: `category`, `sub_category` and `primary_color` take the new
value only when it is non-empty and otherwise keep the existing one;
`secondary_colors` and `vibe_tags` become duplicate-free unions of old and new;
but `estimated_season` always takes the new value — even an empty one — because
the object spread applies no non-empty-wins fallback to it. -/
theorem mergeMetadata_policy (ex new : ClothingMetadata) :
    (mergeMetadata ex new).category =
      (if new.category = "" then ex.category else new.category) ∧
    (mergeMetadata ex new).sub_category =
      (if new.sub_category = "" then ex.sub_category else new.sub_category) ∧
    (mergeMetadata ex new).primary_color =
      (if new.primary_color = "" then ex.primary_color else new.primary_color) ∧
    (∀ c, c ∈ (mergeMetadata ex new).secondary_colors ↔
      c ∈ ex.secondary_colors ∨ c ∈ new.secondary_colors) ∧
    (mergeMetadata ex new).secondary_colors.Nodup ∧
    (∀ t, t ∈ (mergeMetadata ex new).vibe_tags ↔
      t ∈ ex.vibe_tags ∨ t ∈ new.vibe_tags) ∧
    (mergeMetadata ex new).vibe_tags.Nodup ∧
    (mergeMetadata ex new).estimated_season = new.estimated_season := by
  refine ⟨rfl, rfl, rfl, fun c => ?_, nodup_dedupKeepFirst _ [],
    fun t => ?_, nodup_dedupKeepFirst _ [], rfl⟩
  · rw [show (mergeMetadata ex new).secondary_colors =
      dedupKeepFirst [] (ex.secondary_colors ++ new.secondary_colors) from rfl,
      mem_dedupKeepFirst]
    simp [List.mem_append]
  · rw [show (mergeMetadata ex new).vibe_tags =
      dedupKeepFirst [] (ex.vibe_tags ++ new.vibe_tags) from rfl,
      mem_dedupKeepFirst]
    simp [List.mem_append]

/-- Environment for the merge counterexample: hashing and analysis always
succeed, ids are constant. -/
def cexEnv : PipelineEnv :=
  ⟨fun _ _ => .ok "h", fun _ _ => .ok blankMeta, fun _ => "new-item-id"⟩

/-- A stored item whose `variants` already contains the URL "u1". -/
def dupRepoItem : StoredItem :=
  ⟨"item-1", "user-1", some ⟨"u1", ["u1"]⟩, "h", some winterMeta⟩

/-- C1 counterexample: merging the URL "u1" into an item whose `variants`
already contains "u1" appends it again — the push is unconditional, so the
append is not a no-op and the variants list ends up holding a duplicate URL
after this merge. -/
theorem mergeItem_appends_duplicate_url :
    (mergeItem cexEnv [dupRepoItem] "item-1" "u1" "user-1").toOption.map
        (fun p => p.1.image_urls) = some (some ⟨"u1", ["u1", "u1"]⟩) ∧
    ¬ (["u1", "u1"] : List String).Nodup := by
  exact ⟨by decide, by decide⟩

theorem mergeItem_updates_variants (env : PipelineEnv) (repo : Repo)
    (existingItemId newImageUrl userId : String) (ex : StoredItem)
    (u : ImageUrls) (s : StoredItem) (repo' : Repo)
    (hfind : findById repo existingItemId userId = some ex)
    (hurls : ex.image_urls = some u)
    (hok : mergeItem env repo existingItemId newImageUrl userId = .ok (s, repo')) :
    s.image_urls = some ⟨u.primary, u.variants ++ [newImageUrl]⟩ := by
  rw [mergeItem, hfind] at hok
  cases han : env.analyze newImageUrl none with
  | error e => rw [han] at hok; exact absurd hok (by simp)
  | ok newMetadata =>
    rw [han] at hok
    simp only [Except.ok.injEq, Prod.mk.injEq] at hok
    rw [← hok.1, hurls]
    simp

/-- C1 amended: the merge path appends `imageURL` to the existing item's
`variants` unconditionally — the updated variants list is always the old list
with `imageURL` appended, whether or not the URL was already present — so
repeated merges of the same URL accumulate duplicate entries. -/
theorem mergeItem_always_appends (env : PipelineEnv) (repo : Repo)
    (existingItemId newImageUrl userId : String) (ex : StoredItem)
    (u : ImageUrls) (s : StoredItem) (repo' : Repo)
    (hfind : findById repo existingItemId userId = some ex)
    (hurls : ex.image_urls = some u)
    (hok : mergeItem env repo existingItemId newImageUrl userId = .ok (s, repo')) :
    s.image_urls = some ⟨u.primary, u.variants ++ [newImageUrl]⟩ :=
  mergeItem_updates_variants env repo existingItemId newImageUrl userId ex u s
    repo' hfind hurls hok

/-- Witness for the amended C1: the concrete duplicate-URL merge. -/
theorem mergeItem_always_appends_witness :
    ({ dupRepoItem with
        image_urls := some ⟨"u1", ["u1", "u1"]⟩
        ai_metadata := some (mergeMetadata winterMeta blankMeta) } :
      StoredItem).image_urls = some ⟨"u1", ["u1"] ++ ["u1"]⟩ :=
  mergeItem_always_appends cexEnv [dupRepoItem] "item-1" "u1" "user-1"
    dupRepoItem ⟨"u1", ["u1"]⟩
    { dupRepoItem with
        image_urls := some ⟨"u1", ["u1", "u1"]⟩
        ai_metadata := some (mergeMetadata winterMeta blankMeta) }
    [{ dupRepoItem with
        image_urls := some ⟨"u1", ["u1", "u1"]⟩
        ai_metadata := some (mergeMetadata winterMeta blankMeta) }]
    (by decide) rfl (by decide)

/-- C3: the ingestion pipeline returns exactly one outcome per input candidate
in input order: the outcome list has the input's length; a candidate whose
resolution throws contributes the failure outcome (empty id, merged = false)
while processing continues with the remaining candidates unchanged; and
processing a concatenated batch is processing the first part and then the rest
from the evolved repository — no failure aborts the batch. -/
theorem processClothingItems_batch (env : PipelineEnv) (userId : String) :
    (∀ (repo : Repo) (items : List ProcessItemInput),
      (processClothingItems env userId repo items).1.length = items.length) ∧
    (∀ (repo : Repo) (item : ProcessItemInput) (rest : List ProcessItemInput)
      (e : String), resolveOne env userId repo item = .error e →
      (processClothingItems env userId repo (item :: rest)).1 =
        failureOutcome :: (processClothingItems env userId repo rest).1) ∧
    (∀ (repo : Repo) (pre post : List ProcessItemInput),
      (processClothingItems env userId repo (pre ++ post)).1 =
        (processClothingItems env userId repo pre).1 ++
          (processClothingItems env userId
            (processClothingItems env userId repo pre).2 post).1) := by
  refine ⟨fun repo items => ?_, fun repo item rest e h => ?_, fun repo pre post => ?_⟩
  · induction items generalizing repo with
    | nil => rfl
    | cons item rest ih =>
      rw [processClothingItems]
      cases h : resolveOne env userId repo item with
      | ok pr => simp [ih pr.2]
      | error e => simp [ih repo]
  · rw [processClothingItems, h]
  · induction pre generalizing repo with
    | nil => simp [processClothingItems]
    | cons item pre ih =>
      rw [List.cons_append, processClothingItems, processClothingItems]
      cases h : resolveOne env userId repo item with
      | ok pr => simp [ih pr.2]
      | error e => simp [ih repo]

/-- Environment for the two-candidate batch scenario: hashing fails for the
URL "bad" and succeeds for any other URL. -/
def c3Env : PipelineEnv :=
  ⟨fun url _ => if url = "bad" then .error "Failed to generate perceptual hash"
    else .ok "h1",
   fun _ _ => .ok winterMeta, fun _ => "fresh-1"⟩

/-- First candidate: its image cannot be fetched, so hashing throws. -/
def badItem : ProcessItemInput := ⟨"bad", none, none, none⟩

/-- Second candidate: resolves normally. -/
def goodItem : ProcessItemInput := ⟨"good", none, none, none⟩

/-- Witness for C3: in a batch of two candidates where the first throws during
hashing, the result is the failure outcome followed by the unchanged processing
of the second candidate, which succeeds with a non-empty id; the batch has
exactly two outcomes. -/
theorem processClothingItems_batch_witness :
    (processClothingItems c3Env "user-1" [] [badItem, goodItem]).1 =
      failureOutcome :: (processClothingItems c3Env "user-1" [] [goodItem]).1 ∧
    (processClothingItems c3Env "user-1" [] [goodItem]).1 =
      [⟨"fresh-1", false, none, none⟩] ∧
    (processClothingItems c3Env "user-1" [] [badItem, goodItem]).1.length =
      ([badItem, goodItem] : List ProcessItemInput).length :=
  ⟨(processClothingItems_batch c3Env "user-1").2.1 [] badItem [goodItem]
      "Failed to generate perceptual hash" (by decide),
    by decide,
    (processClothingItems_batch c3Env "user-1").1 [] [badItem, goodItem]⟩

/-- A persisted item has a non-empty primary image reference. -/
def hasValidPrimary (s : StoredItem) : Prop :=
  ∃ u, s.image_urls = some u ∧ u.primary ≠ ""

theorem mergeItem_preserves_validPrimary (env : PipelineEnv) (repo : Repo)
    (existingItemId newImageUrl userId : String) (s : StoredItem) (repo' : Repo)
    (hrepo : ∀ t ∈ repo, hasValidPrimary t)
    (hok : mergeItem env repo existingItemId newImageUrl userId = .ok (s, repo')) :
    ∀ t ∈ repo', hasValidPrimary t := by
  rw [mergeItem] at hok
  cases hfind : findById repo existingItemId userId with
  | none => rw [hfind] at hok; exact absurd hok (by simp)
  | some ex =>
    rw [hfind] at hok
    cases han : env.analyze newImageUrl none with
    | error e => rw [han] at hok; exact absurd hok (by simp)
    | ok newMetadata =>
      rw [han] at hok
      simp only [Except.ok.injEq, Prod.mk.injEq] at hok
      have hexmem : ex ∈ repo := List.mem_of_find?_eq_some hfind
      obtain ⟨u, hu, hup⟩ := hrepo ex hexmem
      intro t ht
      rw [← hok.2] at ht
      obtain ⟨a, ha, hfa⟩ := List.mem_map.mp ht
      by_cases hid : a.id = existingItemId
      · rw [if_pos hid] at hfa
        refine ⟨⟨u.primary, u.variants ++ [newImageUrl]⟩, ?_, hup⟩
        rw [← hfa]
        simp [hu]
      · rw [if_neg hid] at hfa
        rw [← hfa]
        exact hrepo a ha

theorem resolveOne_preserves_validPrimary (env : PipelineEnv) (userId : String)
    (repo : Repo) (item : ProcessItemInput) (out : ProcessedItem) (repo' : Repo)
    (hurl : item.imageUrl ≠ "") (hrepo : ∀ t ∈ repo, hasValidPrimary t)
    (hok : resolveOne env userId repo item = .ok (out, repo')) :
    ∀ t ∈ repo', hasValidPrimary t := by
  rw [resolveOne] at hok
  cases hh : env.hash item.imageUrl item.boundingBox with
  | error e => rw [hh] at hok; exact absurd hok (by simp)
  | ok perceptualHash =>
    rw [hh] at hok
    dsimp only at hok
    cases hfind : findBySignature repo userId perceptualHash with
    | some exactMatch =>
      rw [hfind] at hok
      dsimp only at hok
      cases hm : mergeItem env repo exactMatch.id item.imageUrl userId with
      | error e => rw [hm] at hok; exact absurd hok (by simp)
      | ok pr =>
        obtain ⟨m, r⟩ := pr
        rw [hm] at hok
        dsimp only at hok
        simp only [Except.ok.injEq, Prod.mk.injEq] at hok
        rw [← hok.2]
        exact mergeItem_preserves_validPrimary env repo exactMatch.id
          item.imageUrl userId m r hrepo (by rw [hm])
    | none =>
      rw [hfind] at hok
      dsimp only at hok
      cases han : env.analyze item.imageUrl item.description with
      | error e => rw [han] at hok; exact absurd hok (by simp)
      | ok metadata =>
        rw [han] at hok
        dsimp only at hok
        simp only [insertItem, Except.ok.injEq, Prod.mk.injEq] at hok
        intro t ht
        rw [← hok.2] at ht
        rcases List.mem_append.mp ht with hold | hnew
        · exact hrepo t hold
        · rw [List.mem_singleton.mp hnew]
          exact ⟨⟨item.imageUrl, []⟩, rfl, hurl⟩

/-- C9: the create path persists the item with `primary` equal to the
candidate's imageURL and empty variants; the merge path keeps the existing
primary unchanged (it only extends `variants`); hence every item in a
repository all of whose rows have a non-empty primary still has a non-empty
primary after any batch of candidates with non-empty imageURLs is processed —
once persisted, `primary` is never emptied or replaced. -/
theorem primary_always_nonempty (env : PipelineEnv) (userId : String) :
    (∀ (repo : Repo) (imageUrl hash : String) (md : ClothingMetadata),
      (insertItem env repo userId imageUrl hash md).1.image_urls =
        some ⟨imageUrl, []⟩) ∧
    (∀ (repo : Repo) (existingItemId newImageUrl uid : String) (ex : StoredItem)
      (u : ImageUrls) (s : StoredItem) (repo' : Repo),
      findById repo existingItemId uid = some ex → ex.image_urls = some u →
      mergeItem env repo existingItemId newImageUrl uid = .ok (s, repo') →
      ∃ vs, s.image_urls = some ⟨u.primary, vs⟩) ∧
    (∀ (repo : Repo) (items : List ProcessItemInput),
      (∀ it ∈ items, it.imageUrl ≠ "") → (∀ t ∈ repo, hasValidPrimary t) →
      ∀ t ∈ (processClothingItems env userId repo items).2, hasValidPrimary t) := by
  refine ⟨fun repo imageUrl hash md => rfl,
    fun repo id url uid ex u s repo' hfind hu hok =>
      ⟨u.variants ++ [url],
        mergeItem_updates_variants env repo id url uid ex u s repo' hfind hu hok⟩,
    fun repo items => ?_⟩
  induction items generalizing repo with
  | nil => intro _ hrepo t ht; exact hrepo t ht
  | cons item rest ih =>
    intro hurls hrepo
    rw [processClothingItems]
    cases h : resolveOne env userId repo item with
    | ok pr =>
      have hnext : ∀ t ∈ pr.2, hasValidPrimary t :=
        resolveOne_preserves_validPrimary env userId repo item pr.1 pr.2
          (hurls item (List.mem_cons_self _ _)) hrepo (by rw [h])
      exact ih pr.2 (fun it hit => hurls it (List.mem_cons_of_mem _ hit)) hnext
    | error e =>
      exact ih repo (fun it hit => hurls it (List.mem_cons_of_mem _ hit)) hrepo

/-- Witness for C9: a one-candidate batch from the empty repository leaves a
repository whose single row has the non-empty primary "good"; and the concrete
duplicate-URL merge keeps the primary "u1". -/
theorem primary_always_nonempty_witness :
    hasValidPrimary ⟨"fresh-1", "user-1", some ⟨"good", []⟩, "h1", some winterMeta⟩ ∧
    (∃ vs, ({ dupRepoItem with
        image_urls := some ⟨"u1", ["u1", "u1"]⟩
        ai_metadata := some (mergeMetadata winterMeta blankMeta) } :
      StoredItem).image_urls = some ⟨"u1", vs⟩) :=
  ⟨(primary_always_nonempty c3Env "user-1").2.2 [] [goodItem]
      (by intro it hit; rw [List.mem_singleton.mp hit]; decide)
      (by intro t ht; exact absurd ht (List.not_mem_nil t))
      ⟨"fresh-1", "user-1", some ⟨"good", []⟩, "h1", some winterMeta⟩
      (by decide),
    (primary_always_nonempty cexEnv "user-1").2.1 [dupRepoItem] "item-1" "u1"
      "user-1" dupRepoItem ⟨"u1", ["u1"]⟩
      { dupRepoItem with
          image_urls := some ⟨"u1", ["u1", "u1"]⟩
          ai_metadata := some (mergeMetadata winterMeta blankMeta) }
      [{ dupRepoItem with
          image_urls := some ⟨"u1", ["u1", "u1"]⟩
          ai_metadata := some (mergeMetadata winterMeta blankMeta) }]
      (by decide) rfl (by decide)⟩

end WardrobePipeline
